import Mathlib

/-!
# studio_api.cpp : the LVGL bridge of the flow runtime

A shallow embedding of
`packages/project-editor/flow/runtime/cpp/lvgl-runtime/src/studio_api.cpp`.

Every exported function of the bridge is a short straight-line sequence of
calls into the widget toolkit, the toolkit allocator and the flow engine.
The embedding keeps

* a `World` : the calls made so far (oldest first) together with the
  context blocks that are currently allocated;
* a `Toolkit` : the values of the toolkit header constants the bridge names,
  and the answers of the toolkit getters the bridge reads back, as functions
  of the calls made so far.

Each bridge function is a program of the monad `M`, which threads the
`World` and stops with a `Fault` on a read or free of a context block that is
not allocated.  The one table read of the bridge is straight-line code without
a guard: outside the table it yields the word found there, and the function
goes on.
-/

namespace StudioApi

/-! ## Data -/

/-- A `const void *` the bridge stores in a style value: an address supplied
by the host, the address of one of the built-in Montserrat fonts
(`&lv_font_montserrat_<px>`), or the word found at `BUILT_IN_FONTS[index]` for
an `index` outside that table (whatever the memory beside the table holds). -/
inductive ConstPtr
  | addr (a : Nat)
  | lv_font_montserrat (px : Nat)
  | outside_BUILT_IN_FONTS (index : Int)
  deriving DecidableEq, Repr

/-- The union `lv_style_value_t`; the bridge writes one of its three members. -/
inductive lv_style_value_t
  | num (n : Int)
  | ptr (p : ConstPtr)
  | color (c : Nat)
  deriving DecidableEq, Repr

/-- The four event callbacks defined by the bridge (function pointers handed
to `lv_obj_add_event_cb`). -/
inductive Callback
  | flow_event_callback
  | flow_event_checked_callback
  | flow_event_unchecked_callback
  | flow_event_callback_delete_user_data
  deriving DecidableEq, Repr

/-- One call that leaves the bridge: into the toolkit, the allocator, the C
library or the flow engine.  Arguments are in the C order. -/
inductive Call
  | lv_obj_create (parent : Nat)
  | lv_label_create (parent : Nat)
  | lv_btn_create (parent : Nat)
  | lv_img_create (parent : Nat)
  | lv_slider_create (parent : Nat)
  | lv_roller_create (parent : Nat)
  | lv_switch_create (parent : Nat)
  | lv_obj_set_pos (obj : Nat) (x y : Int)
  | lv_obj_set_size (obj : Nat) (w h : Int)
  | lv_obj_update_layout (obj : Nat)
  | lv_label_set_long_mode (obj : Nat) (long_mode : Nat)
  | lv_label_set_text (obj : Nat) (text : Nat)
  | lv_label_set_recolor (obj : Nat) (recolor : Bool)
  | free (p : Nat)
  | lv_img_set_src (obj : Nat) (img_src : Nat)
  | lv_img_set_pivot (obj : Nat) (x y : Int)
  | lv_img_set_zoom (obj : Nat) (zoom : Nat)
  | lv_img_set_angle (obj : Nat) (angle : Int)
  | lv_slider_set_range (obj : Nat) (min max : Int)
  | lv_slider_set_mode (obj : Nat) (mode : Nat)
  | lv_slider_set_value (obj : Nat) (value : Int) (anim : Nat)
  | lv_slider_set_left_value (obj : Nat) (value : Int) (anim : Nat)
  | lv_roller_set_options (obj : Nat) (options : Nat) (mode : Nat)
  | lv_scr_load (obj : Nat)
  | lv_obj_del (obj : Nat)
  | lv_obj_add_flag (obj : Nat) (f : Nat)
  | lv_obj_clear_flag (obj : Nat) (f : Nat)
  | lv_obj_add_state (obj : Nat) (s : Nat)
  | lv_obj_clear_state (obj : Nat) (s : Nat)
  | lv_obj_set_local_style_prop (obj : Nat) (prop : Nat) (value : lv_style_value_t)
      (selector : Nat)
  | lv_mem_alloc (size : Nat)
  | lv_mem_free (p : Nat)
  | lv_obj_add_event_cb (obj : Nat) (cb : Callback) (filter : Nat) (user_data : Nat)
  | flowOnPageLoaded (page_index : Nat)
  | flowPropagateValue (page_index component_index output_index : Nat)
  deriving DecidableEq, Repr

/-- The context block `struct FlowEventCallbackData`. -/
structure FlowEventCallbackData where
  page_index : Nat
  component_index : Nat
  output_index : Nat
  deriving DecidableEq, Repr

/-- The fields of `lv_event_t` the callbacks read. -/
structure lv_event_t where
  target : Nat
  code : Nat
  user_data : Nat
  deriving DecidableEq, Repr

/-- What the bridge runs against: the calls made so far, the allocated context
blocks, and the number of the next block the allocator hands out. -/
structure World where
  log : List Call
  heap : Nat → Option FlowEventCallbackData
  brk : Nat

/-- Where a callback of the bridge touches a context block that is not
allocated. -/
inductive Fault
  | invalid_access
  | invalid_free
  deriving DecidableEq, Repr

/-- The toolkit as the bridge sees it.  The constants are those of the toolkit
headers (not part of the bridge source), so they are left open.  The getters
answer from the history of calls. -/
structure Toolkit where
  LV_EVENT_ALL : Nat
  LV_EVENT_VALUE_CHANGED : Nat
  LV_EVENT_DELETE : Nat
  LV_STATE_CHECKED : Nat
  LV_SLIDER_MODE_RANGE : Nat
  LV_ANIM_OFF : Nat
  /-- the handle a constructor returns, given the history up to and including
  the constructor call -/
  new_obj : List Call → Nat
  lv_slider_get_mode : List Call → Nat → Nat
  lv_obj_has_state : List Call → Nat → Nat → Bool
  lv_color_hex : Nat → Nat

/-- Programs of the bridge. -/
abbrev M := StateT World (Except Fault)

/-- Append one call to the history. -/
def call (c : Call) : M Unit :=
  modify fun w => { w with log := w.log ++ [c] }

/-- A toolkit constructor: the call is recorded and the toolkit answers with
the handle of the new object. -/
def construct (T : Toolkit) (c : Call) : M Nat := do
  call c
  let w ← get
  pure (T.new_obj w.log)

/-- The macro `LV_EVENT_CHECKED`, defined as `0x7E` (line 232). -/
def LV_EVENT_CHECKED : Nat := 0x7E

/-- The macro `LV_EVENT_UNCHECKED`, defined as `0x7F` (line 233). -/
def LV_EVENT_UNCHECKED : Nat := 0x7F

/-- Conversion of a C `int` to `unsigned` (32 bit). -/
def toUnsigned (i : Int) : Nat := (i % 2 ^ 32).toNat

/-- Conversion to `int16_t` (two's complement wrap-around). -/
def toInt16 (i : Int) : Int := (i + 2 ^ 15) % 2 ^ 16 - 2 ^ 15

/-- Lines 11-17. -/
def lvglCreateContainer (T : Toolkit) (parentObj : Nat) (x y w h : Int) : M Nat := do
  let obj ← construct T (.lv_obj_create parentObj)
  call (.lv_obj_set_pos obj x y)
  call (.lv_obj_set_size obj w h)
  call (.lv_obj_update_layout obj)
  return obj

/-- Lines 19-30.  `text` is the address of the string, which the bridge frees. -/
def lvglCreateLabel (T : Toolkit) (parentObj : Nat) (x y w h : Int) (text : Nat)
    (long_mode : Nat) (recolor : Bool) : M Nat := do
  let obj ← construct T (.lv_label_create parentObj)
  call (.lv_obj_set_pos obj x y)
  call (.lv_obj_set_size obj w h)
  call (.lv_label_set_long_mode obj long_mode)
  call (.lv_label_set_text obj text)
  call (.lv_label_set_recolor obj recolor)
  call (.free text)
  call (.lv_obj_update_layout obj)
  return obj

/-- Lines 32-38. -/
def lvglCreateButton (T : Toolkit) (parentObj : Nat) (x y w h : Int) : M Nat := do
  let obj ← construct T (.lv_btn_create parentObj)
  call (.lv_obj_set_pos obj x y)
  call (.lv_obj_set_size obj w h)
  call (.lv_obj_update_layout obj)
  return obj

/-- Lines 40-46. -/
def lvglCreatePanel (T : Toolkit) (parentObj : Nat) (x y w h : Int) : M Nat := do
  let obj ← construct T (.lv_obj_create parentObj)
  call (.lv_obj_set_pos obj x y)
  call (.lv_obj_set_size obj w h)
  call (.lv_obj_update_layout obj)
  return obj

/-- Lines 48-60.  `img_src` is an address, 0 the null pointer. -/
def lvglCreateImage (T : Toolkit) (parentObj : Nat) (x y w h : Int) (img_src : Nat)
    (pivotX pivotY : Int) (zoom : Nat) (angle : Int) : M Nat := do
  let obj ← construct T (.lv_img_create parentObj)
  call (.lv_obj_set_pos obj x y)
  call (.lv_obj_set_size obj w h)
  if img_src ≠ 0 then
    call (.lv_img_set_src obj img_src)
  call (.lv_img_set_pivot obj pivotX pivotY)
  call (.lv_img_set_zoom obj zoom)
  call (.lv_img_set_angle obj angle)
  call (.lv_obj_update_layout obj)
  return obj

/-- Lines 69-81. -/
def lvglCreateSlider (T : Toolkit) (parentObj : Nat) (x y w h : Int) (min max : Int)
    (mode : Nat) (value value_left : Int) : M Nat := do
  let obj ← construct T (.lv_slider_create parentObj)
  call (.lv_obj_set_pos obj x y)
  call (.lv_obj_set_size obj w h)
  call (.lv_slider_set_range obj min max)
  call (.lv_slider_set_mode obj mode)
  call (.lv_slider_set_value obj value T.LV_ANIM_OFF)
  if T.lv_slider_get_mode (← get).log obj = T.LV_SLIDER_MODE_RANGE then
    call (.lv_slider_set_left_value obj value_left T.LV_ANIM_OFF)
  call (.lv_obj_update_layout obj)
  return obj

/-- Lines 83-91.  `options` is the address of the string, which the bridge frees. -/
def lvglCreateRoller (T : Toolkit) (parentObj : Nat) (x y w h : Int) (options : Nat)
    (mode : Nat) : M Nat := do
  let obj ← construct T (.lv_roller_create parentObj)
  call (.lv_obj_set_pos obj x y)
  call (.lv_obj_set_size obj w h)
  call (.lv_roller_set_options obj options mode)
  call (.free options)
  call (.lv_obj_update_layout obj)
  return obj

/-- Lines 93-99. -/
def lvglCreateSwitch (T : Toolkit) (parentObj : Nat) (x y w h : Int) : M Nat := do
  let obj ← construct T (.lv_switch_create parentObj)
  call (.lv_obj_set_pos obj x y)
  call (.lv_obj_set_size obj w h)
  call (.lv_obj_update_layout obj)
  return obj

/-! ## Screen transition (lines 101-106) -/

/-- Lines 101-106.  `page_index` is `unsigned`, so the `-1` it is compared with is
converted to `unsigned`. -/
def lvglScreenLoad (page_index : Nat) (obj : Nat) : M Unit := do
  call (.lv_scr_load obj)
  if page_index ≠ toUnsigned (-1) then
    call (.flowOnPageLoaded page_index)

/-- Lines 108-110. -/
def lvglDeleteObject (obj : Nat) : M Unit := do
  call (.lv_obj_del obj)

/-! ## Flags, states and local style properties (lines 112-191) -/

/-- The static table of `lvglObjSetLocalStylePropBuiltInFont` (lines 164-186). -/
def BUILT_IN_FONTS : List ConstPtr :=
  [ .lv_font_montserrat 8,
    .lv_font_montserrat 10,
    .lv_font_montserrat 12,
    .lv_font_montserrat 14,
    .lv_font_montserrat 16,
    .lv_font_montserrat 18,
    .lv_font_montserrat 20,
    .lv_font_montserrat 22,
    .lv_font_montserrat 24,
    .lv_font_montserrat 26,
    .lv_font_montserrat 28,
    .lv_font_montserrat 30,
    .lv_font_montserrat 32,
    .lv_font_montserrat 34,
    .lv_font_montserrat 36,
    .lv_font_montserrat 38,
    .lv_font_montserrat 40,
    .lv_font_montserrat 42,
    .lv_font_montserrat 44,
    .lv_font_montserrat 46,
    .lv_font_montserrat 48 ]

/-- The entry of `table` at the signed index `i`, if `i` is inside the table. -/
def subscript (table : List ConstPtr) (i : Int) : Option ConstPtr :=
  if 0 ≤ i then table.get? i.toNat else none

/-- The read `BUILT_IN_FONTS[font_index]` of line 188.  No test precedes it:
inside the table it yields the entry, outside it yields the word found there. -/
def readBuiltInFont (font_index : Int) : ConstPtr :=
  match subscript BUILT_IN_FONTS font_index with
  | some p => p
  | none => .outside_BUILT_IN_FONTS font_index

/-- Lines 163-191. -/
def lvglObjSetLocalStylePropBuiltInFont (obj : Nat) (prop : Nat) (font_index : Int)
    (selector : Nat) : M Unit := do
  let value := lv_style_value_t.ptr (readBuiltInFont font_index)
  call (.lv_obj_set_local_style_prop obj prop value selector)
  call (.lv_obj_update_layout obj)

/-! ## Geometry queries (lines 193-207) -/

/-- The type `lv_area_t`. -/
structure lv_area_t where
  x1 : Int
  y1 : Int
  x2 : Int
  y2 : Int
  deriving DecidableEq, Repr

/-- The two fields of `lv_obj_t` the bridge reads; `parent = 0` is the null
pointer. -/
structure lv_obj_t where
  parent : Nat
  coords : lv_area_t
  deriving DecidableEq, Repr

/-- The toolkit getter `lv_obj_get_parent`, over the object memory. -/
def lv_obj_get_parent (objs : Nat → lv_obj_t) (obj : Nat) : Nat :=
  (objs obj).parent

/-- Lines 193-199.  The subtraction is done in `int`; the `return` converts to
`int16_t`. -/
def lvglGetObjRelX (objs : Nat → lv_obj_t) (obj : Nat) : Int :=
  let parent := lv_obj_get_parent objs obj
  if parent ≠ 0 then
    toInt16 ((objs obj).coords.x1 - (objs parent).coords.x1)
  else
    toInt16 (objs obj).coords.x1

/-- Lines 201-207.  As for `lvglGetObjRelX`. -/
def lvglGetObjRelY (objs : Nat → lv_obj_t) (obj : Nat) : Int :=
  let parent := lv_obj_get_parent objs obj
  if parent ≠ 0 then
    toInt16 ((objs obj).coords.y1 - (objs parent).coords.y1)
  else
    toInt16 (objs obj).coords.y1

/-! ## Event bridge (lines 232-282) -/

/-- The allocator `lv_mem_alloc` (toolkit code).  Blocks are numbered and an
allocation hands out the next number: it does not fail and never hands out a
block twice.  The contents of a new block are unspecified in C (here zero); the
bridge writes all three fields before any read. -/
def lv_mem_alloc (size : Nat) : M Nat := do
  call (.lv_mem_alloc size)
  let w ← get
  set { w with heap := fun a => if a = w.brk then some ⟨0, 0, 0⟩ else w.heap a,
               brk := w.brk + 1 }
  pure w.brk

/-- The allocator `lv_mem_free` (toolkit code): the block must be allocated,
and afterwards is not. -/
def lv_mem_free (p : Nat) : M Unit := do
  call (.lv_mem_free p)
  let w ← get
  match w.heap p with
  | some _ => set { w with heap := fun a => if a = p then none else w.heap a }
  | none => throw Fault.invalid_free

/-- A read through a `FlowEventCallbackData *`: the block must be allocated. -/
def load (p : Nat) : M FlowEventCallbackData := do
  match (← get).heap p with
  | some d => pure d
  | none => throw Fault.invalid_access

/-- A write of one field through a `FlowEventCallbackData *`: the block must be
allocated. -/
def store (p : Nat) (f : FlowEventCallbackData → FlowEventCallbackData) : M Unit := do
  let w ← get
  match w.heap p with
  | some d => set { w with heap := fun a => if a = p then some (f d) else w.heap a }
  | none => throw Fault.invalid_access

/-- The toolkit getter `lv_event_get_code`. -/
@[simp] def lv_event_get_code (e : lv_event_t) : Nat := e.code

/-- The toolkit getter `lv_event_get_target`. -/
@[simp] def lv_event_get_target (e : lv_event_t) : Nat := e.target

/-- The size of `FlowEventCallbackData`: three 32-bit `unsigned`. -/
def sizeof_FlowEventCallbackData : Nat := 12

/-- Lines 241-244. -/
def flow_event_callback (e : lv_event_t) : M Unit := do
  let data ← load e.user_data
  call (.flowPropagateValue data.page_index data.component_index data.output_index)

/-- Lines 246-252. -/
def flow_event_checked_callback (T : Toolkit) (e : lv_event_t) : M Unit := do
  let event := lv_event_get_code e
  let ta := lv_event_get_target e
  if event = T.LV_EVENT_VALUE_CHANGED
      && T.lv_obj_has_state (← get).log ta T.LV_STATE_CHECKED then
    flow_event_callback e

/-- Lines 254-260. -/
def flow_event_unchecked_callback (T : Toolkit) (e : lv_event_t) : M Unit := do
  let event := lv_event_get_code e
  let ta := lv_event_get_target e
  if event = T.LV_EVENT_VALUE_CHANGED
      && !T.lv_obj_has_state (← get).log ta T.LV_STATE_CHECKED then
    flow_event_callback e

/-- Lines 262-264. -/
def flow_event_callback_delete_user_data (e : lv_event_t) : M Unit := do
  lv_mem_free e.user_data

/-- Lines 266-282. -/
def lvglAddObjectFlowCallback (T : Toolkit) (obj : Nat) (filter : Nat)
    (page_index component_index output_index : Nat) : M Unit := do
  let data ← lv_mem_alloc sizeof_FlowEventCallbackData
  store data fun d => { d with page_index := page_index }
  store data fun d => { d with component_index := component_index }
  store data fun d => { d with output_index := output_index }
  if filter = LV_EVENT_CHECKED then
    call (.lv_obj_add_event_cb obj .flow_event_checked_callback T.LV_EVENT_VALUE_CHANGED data)
  else if filter = LV_EVENT_UNCHECKED then
    call (.lv_obj_add_event_cb obj .flow_event_unchecked_callback T.LV_EVENT_VALUE_CHANGED data)
  else
    call (.lv_obj_add_event_cb obj .flow_event_callback filter data)
  call (.lv_obj_add_event_cb obj .flow_event_callback_delete_user_data T.LV_EVENT_DELETE data)

/-! ## Vocabulary of the statements -/

/-- Running `m` in `w` ends without a fault, returns `a`, makes exactly the
calls `tr` (in that order) and leaves the allocated blocks as they were. -/
def Performs {α : Type} (m : M α) (w : World) (a : α) (tr : List Call) : Prop :=
  m.run w = .ok (a, { w with log := w.log ++ tr })

/-- The toolkit constructors. -/
def isConstructor : Call → Bool
  | .lv_obj_create _ => true
  | .lv_label_create _ => true
  | .lv_btn_create _ => true
  | .lv_img_create _ => true
  | .lv_slider_create _ => true
  | .lv_roller_create _ => true
  | .lv_switch_create _ => true
  | _ => false

/-- What is asked of a widget factory `m` whose constructor call is `ctor`:
the trace starts with the constructor, `lv_obj_set_pos`, `lv_obj_set_size` on
the handle the constructor answered; the constructor is the only constructor
call; the trace ends with `lv_obj_update_layout`; that handle is returned. -/
def FactoryContract (T : Toolkit) (w : World) (ctor : Call) (x y wd h : Int)
    (m : M Nat) : Prop :=
  ∃ rest : List Call,
    Performs m w (T.new_obj (w.log ++ [ctor]))
      (ctor :: .lv_obj_set_pos (T.new_obj (w.log ++ [ctor])) x y
        :: .lv_obj_set_size (T.new_obj (w.log ++ [ctor])) wd h :: rest) ∧
    isConstructor ctor = true ∧
    (ctor :: .lv_obj_set_pos (T.new_obj (w.log ++ [ctor])) x y
        :: .lv_obj_set_size (T.new_obj (w.log ++ [ctor])) wd h :: rest).countP isConstructor = 1 ∧
    (ctor :: .lv_obj_set_pos (T.new_obj (w.log ++ [ctor])) x y
        :: .lv_obj_set_size (T.new_obj (w.log ++ [ctor])) wd h :: rest).getLast?
      = some (.lv_obj_update_layout (T.new_obj (w.log ++ [ctor])))

/-- A world with no call made and no block allocated. -/
def World.empty : World := { log := [], heap := fun _ => none, brk := 0 }

/-- A small concrete toolkit: the constants have the values of the LVGL 8.3
headers, a constructor answers with the number of calls made so far, the slider
mode read back is the last one set, an object is in a state once it was added
and not cleared since. -/
def sampleToolkit : Toolkit :=
  { LV_EVENT_ALL := 0
    LV_EVENT_VALUE_CHANGED := 28
    LV_EVENT_DELETE := 33
    LV_STATE_CHECKED := 1
    LV_SLIDER_MODE_RANGE := 2
    LV_ANIM_OFF := 0
    new_obj := fun log => log.length
    lv_slider_get_mode := fun log obj =>
      log.foldl (fun m c => match c with
        | .lv_slider_set_mode o v => if o = obj then v else m
        | _ => m) 0
    lv_obj_has_state := fun log obj s =>
      log.foldl (fun b c => match c with
        | .lv_obj_add_state o v => if o = obj ∧ v = s then true else b
        | .lv_obj_clear_state o v => if o = obj ∧ v = s then false else b
        | _ => b) false
    lv_color_hex := fun c => c }

/-- Example object memory: object 1 at x1 = 20000, y1 = 20000 with parent 2;
object 2 at x1 = -20000, y1 = -20000 without parent. -/
def sampleObjects : Nat → lv_obj_t := fun a =>
  if a = 1 then { parent := 2, coords := ⟨20000, 20000, 20010, 20010⟩ }
  else { parent := 0, coords := ⟨-20000, -20000, 30000, 30000⟩ }

/-! ## Event subscriptions and dispatch -/

/-- One entry of an object's event list, as `lv_obj_add_event_cb` stores it. -/
structure Subscription where
  cb : Callback
  filter : Nat
  user_data : Nat
  deriving DecidableEq, Repr

/-- The subscription a call adds to `obj`, if it adds one. -/
def subscriptionOf (obj : Nat) : Call → Option Subscription
  | .lv_obj_add_event_cb o cb filter user_data =>
      if o = obj then some ⟨cb, filter, user_data⟩ else none
  | _ => none

/-- The event list of `obj`: its subscriptions in the order they were added. -/
def subscriptions (log : List Call) (obj : Nat) : List Subscription :=
  log.filterMap (subscriptionOf obj)

/-- A function pointer, called. -/
def runCallback (T : Toolkit) : Callback → lv_event_t → M Unit
  | .flow_event_callback, e => flow_event_callback e
  | .flow_event_checked_callback, e => flow_event_checked_callback T e
  | .flow_event_unchecked_callback, e => flow_event_unchecked_callback T e
  | .flow_event_callback_delete_user_data, e => flow_event_callback_delete_user_data e

/-- Modelled from the spec: the toolkit's event dispatch is not part of the
bridge source.  The spec says the context is attached "as user data to a toolkit
event subscription" and freed "when the object is destroyed"; accordingly an
event with code `code` on `obj` runs, in the order of subscription, every
callback whose filter is `code` or `LV_EVENT_ALL`, with the subscription's user
data in the event. -/
def dispatch (T : Toolkit) (obj code : Nat) : List Subscription → M Unit
  | [] => pure ()
  | s :: rest => do
      if s.filter = T.LV_EVENT_ALL ∨ s.filter = code then
        runCallback T s.cb { target := obj, code := code, user_data := s.user_data }
      dispatch T obj code rest

/-- Modelled from the spec: sending an event to an object dispatches it over the
object's event list (see `dispatch`). -/
def lv_event_send (T : Toolkit) (obj code : Nat) : M Unit := do
  dispatch T obj code (subscriptions (← get).log obj)

/-- The arguments of one call of `lvglAddObjectFlowCallback`. -/
structure Registration where
  obj : Nat
  filter : Nat
  page_index : Nat
  component_index : Nat
  output_index : Nat
  deriving DecidableEq, Repr

/-- A sequence of calls of `lvglAddObjectFlowCallback`. -/
def register (T : Toolkit) : List Registration → M Unit
  | [] => pure ()
  | r :: rs => do
      lvglAddObjectFlowCallback T r.obj r.filter r.page_index r.component_index
        r.output_index
      register T rs

/-- The forwarding subscription that goes with filter code `filter` and context
block `data`: the checked callback on `LV_EVENT_VALUE_CHANGED` for 0x7E, the
unchecked callback on `LV_EVENT_VALUE_CHANGED` for 0x7F, the generic callback on
`filter` itself otherwise. -/
def forwardingSubscription (T : Toolkit) (filter data : Nat) : Subscription :=
  if filter = 0x7E then ⟨.flow_event_checked_callback, T.LV_EVENT_VALUE_CHANGED, data⟩
  else if filter = 0x7F then ⟨.flow_event_unchecked_callback, T.LV_EVENT_VALUE_CHANGED, data⟩
  else ⟨.flow_event_callback, filter, data⟩

/-- The call that adds subscription `s` to `obj`. -/
def Subscription.addedTo (s : Subscription) (obj : Nat) : Call :=
  .lv_obj_add_event_cb obj s.cb s.filter s.user_data

/-- The calls that subscribe a forwarding callback (any callback of the bridge
but the freeing one). -/
def isForwardingSubscription : Call → Bool
  | .lv_obj_add_event_cb _ cb _ _ => cb ≠ .flow_event_callback_delete_user_data
  | _ => false

/-- The calls that subscribe the freeing callback to `LV_EVENT_DELETE`. -/
def isFreeingSubscription (T : Toolkit) : Call → Bool
  | .lv_obj_add_event_cb _ cb filter _ =>
      cb = .flow_event_callback_delete_user_data ∧ filter = T.LV_EVENT_DELETE
  | _ => false

/-- The subscriptions a sequence of registrations adds to `obj`, when the first
of them receives block `base`: for each registration on `obj` the forwarding
subscription and then the freeing one, both with the block of that call. -/
def registeredSubscriptions (T : Toolkit) (obj : Nat) : Nat → List Registration →
    List Subscription
  | _, [] => []
  | base, r :: rs =>
      (if r.obj = obj then
        [ forwardingSubscription T r.filter base,
          ⟨.flow_event_callback_delete_user_data, T.LV_EVENT_DELETE, base⟩ ]
       else [])
      ++ registeredSubscriptions T obj (base + 1) rs

/-- The blocks a sequence of registrations allocates for `obj`, when the first
of them receives block `base`. -/
def blocksFor (obj : Nat) : Nat → List Registration → List Nat
  | _, [] => []
  | base, r :: rs => (if r.obj = obj then [base] else []) ++ blocksFor obj (base + 1) rs

/-- Example registrations: two on object 5 (a generic one on `LV_EVENT_DELETE`
itself and a checked one), one on object 6. -/
def sampleRegistrations : List Registration :=
  [ ⟨5, 33, 1, 2, 3⟩, ⟨6, 7, 4, 5, 6⟩, ⟨5, 0x7E, 7, 8, 9⟩ ]

/-- Example world: object 7 has been put into state 1 (`LV_STATE_CHECKED` of the
sample toolkit) and block 0 holds the context (1, 2, 3). -/
def sampleCheckedWorld : World :=
  { log := [.lv_obj_add_state 7 1]
    heap := fun a => if a = 0 then some ⟨1, 2, 3⟩ else none
    brk := 1 }

/-! ## Widget factories -/

/-- In `Except`, `pure` is `Except.ok`. -/
theorem pure_eq_ok {ε α : Type} (a : α) : (pure a : Except ε α) = Except.ok a := rfl

/-- In `Except`, binding a value that is there runs the continuation on it. -/
theorem ok_bind {ε α β : Type} (a : α) (f : α → Except ε β) :
    (Except.ok a >>= f) = f a := rfl

/-- C7: each of the eight widget factories calls the constructor of its kind
exactly once with the given parent, then `lv_obj_set_pos(obj, x, y)` and
`lv_obj_set_size(obj, w, h)` on the constructed object before any
type-specific call, ends with `lv_obj_update_layout(obj)`, and returns the
handle the constructor returned. -/
theorem factories_follow_contract (T : Toolkit) (wld : World) (parentObj : Nat)
    (x y w h : Int) :
    FactoryContract T wld (.lv_obj_create parentObj) x y w h
      (lvglCreateContainer T parentObj x y w h) ∧
    (∀ text long_mode recolor,
      FactoryContract T wld (.lv_label_create parentObj) x y w h
        (lvglCreateLabel T parentObj x y w h text long_mode recolor)) ∧
    FactoryContract T wld (.lv_btn_create parentObj) x y w h
      (lvglCreateButton T parentObj x y w h) ∧
    FactoryContract T wld (.lv_obj_create parentObj) x y w h
      (lvglCreatePanel T parentObj x y w h) ∧
    (∀ img_src pivotX pivotY zoom angle,
      FactoryContract T wld (.lv_img_create parentObj) x y w h
        (lvglCreateImage T parentObj x y w h img_src pivotX pivotY zoom angle)) ∧
    (∀ min max mode value value_left,
      FactoryContract T wld (.lv_slider_create parentObj) x y w h
        (lvglCreateSlider T parentObj x y w h min max mode value value_left)) ∧
    (∀ options mode,
      FactoryContract T wld (.lv_roller_create parentObj) x y w h
        (lvglCreateRoller T parentObj x y w h options mode)) ∧
    FactoryContract T wld (.lv_switch_create parentObj) x y w h
      (lvglCreateSwitch T parentObj x y w h) := by
  refine ⟨?_, ?_, ?_, ?_, ?_, ?_, ?_, ?_⟩
  · exact ⟨(fun o => [.lv_obj_update_layout o]) (T.new_obj (wld.log ++ [.lv_obj_create parentObj])),
      by simp [Performs, lvglCreateContainer, construct, call, isConstructor, pure_eq_ok, ok_bind]⟩
  · intro text long_mode recolor
    exact ⟨(fun o => [.lv_label_set_long_mode o long_mode, .lv_label_set_text o text,
        .lv_label_set_recolor o recolor, .free text, .lv_obj_update_layout o])
        (T.new_obj (wld.log ++ [.lv_label_create parentObj])),
      by simp [Performs, lvglCreateLabel, construct, call, isConstructor, pure_eq_ok, ok_bind]⟩
  · exact ⟨(fun o => [.lv_obj_update_layout o]) (T.new_obj (wld.log ++ [.lv_btn_create parentObj])),
      by simp [Performs, lvglCreateButton, construct, call, isConstructor, pure_eq_ok, ok_bind]⟩
  · exact ⟨(fun o => [.lv_obj_update_layout o]) (T.new_obj (wld.log ++ [.lv_obj_create parentObj])),
      by simp [Performs, lvglCreatePanel, construct, call, isConstructor, pure_eq_ok, ok_bind]⟩
  · intro img_src pivotX pivotY zoom angle
    by_cases hsrc : img_src = 0
    · exact ⟨(fun o => [.lv_img_set_pivot o pivotX pivotY, .lv_img_set_zoom o zoom,
          .lv_img_set_angle o angle, .lv_obj_update_layout o])
          (T.new_obj (wld.log ++ [.lv_img_create parentObj])),
        by simp [Performs, lvglCreateImage, construct, call, isConstructor, hsrc, pure_eq_ok, ok_bind]⟩
    · exact ⟨(fun o => [.lv_img_set_src o img_src, .lv_img_set_pivot o pivotX pivotY,
          .lv_img_set_zoom o zoom, .lv_img_set_angle o angle, .lv_obj_update_layout o])
          (T.new_obj (wld.log ++ [.lv_img_create parentObj])),
        by simp [Performs, lvglCreateImage, construct, call, isConstructor, hsrc, pure_eq_ok, ok_bind]⟩
  · intro min max mode value value_left
    by_cases hmode : T.lv_slider_get_mode
        (wld.log ++ [.lv_slider_create parentObj,
          .lv_obj_set_pos (T.new_obj (wld.log ++ [.lv_slider_create parentObj])) x y,
          .lv_obj_set_size (T.new_obj (wld.log ++ [.lv_slider_create parentObj])) w h,
          .lv_slider_set_range (T.new_obj (wld.log ++ [.lv_slider_create parentObj])) min max,
          .lv_slider_set_mode (T.new_obj (wld.log ++ [.lv_slider_create parentObj])) mode,
          .lv_slider_set_value (T.new_obj (wld.log ++ [.lv_slider_create parentObj])) value
            T.LV_ANIM_OFF])
        (T.new_obj (wld.log ++ [.lv_slider_create parentObj])) = T.LV_SLIDER_MODE_RANGE
    · exact ⟨(fun o => [.lv_slider_set_range o min max, .lv_slider_set_mode o mode,
          .lv_slider_set_value o value T.LV_ANIM_OFF,
          .lv_slider_set_left_value o value_left T.LV_ANIM_OFF, .lv_obj_update_layout o])
          (T.new_obj (wld.log ++ [.lv_slider_create parentObj])),
        by simp [Performs, lvglCreateSlider, construct, call, isConstructor, hmode, pure_eq_ok, ok_bind]⟩
    · exact ⟨(fun o => [.lv_slider_set_range o min max, .lv_slider_set_mode o mode,
          .lv_slider_set_value o value T.LV_ANIM_OFF, .lv_obj_update_layout o])
          (T.new_obj (wld.log ++ [.lv_slider_create parentObj])),
        by simp [Performs, lvglCreateSlider, construct, call, isConstructor, hmode, pure_eq_ok, ok_bind]⟩
  · intro options mode
    exact ⟨(fun o => [.lv_roller_set_options o options mode, .free options,
        .lv_obj_update_layout o]) (T.new_obj (wld.log ++ [.lv_roller_create parentObj])),
      by simp [Performs, lvglCreateRoller, construct, call, isConstructor, pure_eq_ok, ok_bind]⟩
  · exact ⟨(fun o => [.lv_obj_update_layout o]) (T.new_obj (wld.log ++ [.lv_switch_create parentObj])),
      by simp [Performs, lvglCreateSwitch, construct, call, isConstructor, pure_eq_ok, ok_bind]⟩

/-- C10: `lvglCreateSlider` sets range, mode and value (no animation) in that
order, and calls `lv_slider_set_left_value(obj, value_left, LV_ANIM_OFF)` exactly
when the mode read back after `lv_slider_set_mode` is `LV_SLIDER_MODE_RANGE`;
otherwise `value_left` does not influence the run. -/
theorem slider_initial_properties (T : Toolkit) (wld : World) (parentObj : Nat)
    (x y w h min max : Int) (mode : Nat) (value value_left : Int) :
    Performs (lvglCreateSlider T parentObj x y w h min max mode value value_left) wld
      (T.new_obj (wld.log ++ [.lv_slider_create parentObj]))
      ([ .lv_slider_create parentObj,
         .lv_obj_set_pos (T.new_obj (wld.log ++ [.lv_slider_create parentObj])) x y,
         .lv_obj_set_size (T.new_obj (wld.log ++ [.lv_slider_create parentObj])) w h,
         .lv_slider_set_range (T.new_obj (wld.log ++ [.lv_slider_create parentObj])) min max,
         .lv_slider_set_mode (T.new_obj (wld.log ++ [.lv_slider_create parentObj])) mode,
         .lv_slider_set_value (T.new_obj (wld.log ++ [.lv_slider_create parentObj])) value
            T.LV_ANIM_OFF ]
        ++ (if T.lv_slider_get_mode
              (wld.log ++ [ .lv_slider_create parentObj,
                .lv_obj_set_pos (T.new_obj (wld.log ++ [.lv_slider_create parentObj])) x y,
                .lv_obj_set_size (T.new_obj (wld.log ++ [.lv_slider_create parentObj])) w h,
                .lv_slider_set_range (T.new_obj (wld.log ++ [.lv_slider_create parentObj]))
                  min max,
                .lv_slider_set_mode (T.new_obj (wld.log ++ [.lv_slider_create parentObj])) mode,
                .lv_slider_set_value (T.new_obj (wld.log ++ [.lv_slider_create parentObj]))
                  value T.LV_ANIM_OFF ])
              (T.new_obj (wld.log ++ [.lv_slider_create parentObj])) = T.LV_SLIDER_MODE_RANGE
            then [ .lv_slider_set_left_value
                     (T.new_obj (wld.log ++ [.lv_slider_create parentObj])) value_left
                     T.LV_ANIM_OFF ]
            else [])
        ++ [ .lv_obj_update_layout (T.new_obj (wld.log ++ [.lv_slider_create parentObj])) ]) ∧
    (T.lv_slider_get_mode
        (wld.log ++ [ .lv_slider_create parentObj,
          .lv_obj_set_pos (T.new_obj (wld.log ++ [.lv_slider_create parentObj])) x y,
          .lv_obj_set_size (T.new_obj (wld.log ++ [.lv_slider_create parentObj])) w h,
          .lv_slider_set_range (T.new_obj (wld.log ++ [.lv_slider_create parentObj])) min max,
          .lv_slider_set_mode (T.new_obj (wld.log ++ [.lv_slider_create parentObj])) mode,
          .lv_slider_set_value (T.new_obj (wld.log ++ [.lv_slider_create parentObj])) value
            T.LV_ANIM_OFF ])
        (T.new_obj (wld.log ++ [.lv_slider_create parentObj])) ≠ T.LV_SLIDER_MODE_RANGE →
      ∀ other_left : Int,
        (lvglCreateSlider T parentObj x y w h min max mode value other_left).run wld =
        (lvglCreateSlider T parentObj x y w h min max mode value value_left).run wld) := by
  constructor
  · split <;> rename_i hmode <;>
      simp [Performs, lvglCreateSlider, construct, call, hmode, pure_eq_ok, ok_bind]
  · intro hmode other_left
    simp [lvglCreateSlider, construct, call, hmode, pure_eq_ok, ok_bind]

/-- C10, at a concrete input: with the sample toolkit and mode 0 the mode read
back is not `LV_SLIDER_MODE_RANGE`, and the left value 7 can be replaced by any
other without changing the run. -/
theorem slider_initial_properties_witness :
    ∀ other_left : Int,
      (lvglCreateSlider sampleToolkit 0 1 2 3 4 0 100 0 50 other_left).run World.empty =
      (lvglCreateSlider sampleToolkit 0 1 2 3 4 0 100 0 50 7).run World.empty :=
  (slider_initial_properties sampleToolkit World.empty 0 1 2 3 4 0 100 0 50 7).2 (by decide)

/-! ## Screen transition -/

/-- C4 as stated fails: for `page_index = 4294967295` (the value `-1` converts
to) the screen is loaded and the flow engine is not notified. -/
theorem screenLoad_skips_notification_at_minus_one :
    (4294967295 : Nat) < 2 ^ 32 ∧
    Performs (lvglScreenLoad 4294967295 1) World.empty () [.lv_scr_load 1] ∧
    ¬ Performs (lvglScreenLoad 4294967295 1) World.empty ()
        [.lv_scr_load 1, .flowOnPageLoaded 4294967295] := by
  refine ⟨by norm_num, ?_, ?_⟩ <;>
    simp [Performs, lvglScreenLoad, call, toUnsigned, World.empty, pure_eq_ok, ok_bind]

/-- C4 (amended): `lvglScreenLoad(page_index, obj)` calls `lv_scr_load(obj)` and
then, unless `page_index` is `(unsigned)-1 = 4294967295`, calls
`flowOnPageLoaded(page_index)`; for that one value only the screen is loaded. -/
theorem screenLoad_loads_then_notifies (wld : World) (page_index obj : Nat) :
    Performs (lvglScreenLoad page_index obj) wld ()
      (if page_index = 4294967295 then [.lv_scr_load obj]
       else [.lv_scr_load obj, .flowOnPageLoaded page_index]) := by
  have h : toUnsigned (-1) = 4294967295 := by decide
  by_cases hp : page_index = 4294967295 <;>
    simp [Performs, lvglScreenLoad, call, h, hp, pure_eq_ok, ok_bind]

/-! ## Property mutators -/

/-- C9: the read `BUILT_IN_FONTS[font_index]` is inside the 21-entry table
exactly when `0 ≤ font_index ≤ 20`; inside, the pointer written to the style
property is the Montserrat font of pixel size `8 + 2 * font_index`; the function
has no range check: for an index outside the table it makes the same two calls,
writing the word it read outside the table. -/
theorem builtInFont_lookup (wld : World) (obj prop selector : Nat) (font_index : Int) :
    BUILT_IN_FONTS.length = 21 ∧
    ((subscript BUILT_IN_FONTS font_index).isSome ↔ 0 ≤ font_index ∧ font_index ≤ 20) ∧
    (0 ≤ font_index ∧ font_index ≤ 20 →
      Performs (lvglObjSetLocalStylePropBuiltInFont obj prop font_index selector) wld ()
        [ .lv_obj_set_local_style_prop obj prop
            (.ptr (.lv_font_montserrat (8 + 2 * font_index).toNat)) selector,
          .lv_obj_update_layout obj ]) ∧
    (¬ (0 ≤ font_index ∧ font_index ≤ 20) →
      subscript BUILT_IN_FONTS font_index = none ∧
      Performs (lvglObjSetLocalStylePropBuiltInFont obj prop font_index selector) wld ()
        [ .lv_obj_set_local_style_prop obj prop
            (.ptr (.outside_BUILT_IN_FONTS font_index)) selector,
          .lv_obj_update_layout obj ]) := by
  have hnone : ¬ (0 ≤ font_index ∧ font_index ≤ 20) →
      subscript BUILT_IN_FONTS font_index = none := by
    intro h
    unfold subscript
    split
    · rename_i h0
      have h21 : 21 ≤ font_index.toNat := by omega
      exact List.get?_eq_none.mpr (by simpa [BUILT_IN_FONTS] using h21)
    · rfl
  refine ⟨rfl, ?_, ?_, ?_⟩
  · constructor
    · intro h
      by_contra hc
      rw [hnone hc] at h
      cases h
    · rintro ⟨h0, h20⟩
      interval_cases font_index <;> rfl
  · rintro ⟨h0, h20⟩
    interval_cases font_index <;>
      simp [Performs, lvglObjSetLocalStylePropBuiltInFont, readBuiltInFont, subscript,
        BUILT_IN_FONTS, call, pure_eq_ok, ok_bind]
  · intro h
    refine ⟨hnone h, ?_⟩
    simp [Performs, lvglObjSetLocalStylePropBuiltInFont, readBuiltInFont, hnone h, call,
      pure_eq_ok, ok_bind]

/-- C9, at concrete inputs: index 0 writes Montserrat 8, index 20 writes
Montserrat 48, index 21 is outside the table and the word read there is
written. -/
theorem builtInFont_lookup_witness :
    Performs (lvglObjSetLocalStylePropBuiltInFont 1 2 0 3) World.empty ()
      [ .lv_obj_set_local_style_prop 1 2 (.ptr (.lv_font_montserrat 8)) 3,
        .lv_obj_update_layout 1 ] ∧
    Performs (lvglObjSetLocalStylePropBuiltInFont 1 2 20 3) World.empty ()
      [ .lv_obj_set_local_style_prop 1 2 (.ptr (.lv_font_montserrat 48)) 3,
        .lv_obj_update_layout 1 ] ∧
    subscript BUILT_IN_FONTS 21 = none ∧
    Performs (lvglObjSetLocalStylePropBuiltInFont 1 2 21 3) World.empty ()
      [ .lv_obj_set_local_style_prop 1 2 (.ptr (.outside_BUILT_IN_FONTS 21)) 3,
        .lv_obj_update_layout 1 ] :=
  ⟨(builtInFont_lookup World.empty 1 2 3 0).2.2.1 (by decide),
   (builtInFont_lookup World.empty 1 2 3 20).2.2.1 (by decide),
   (builtInFont_lookup World.empty 1 2 3 21).2.2.2 (by decide)⟩

/-! ## Geometry queries -/

/-- C6 as stated fails: with the object at 20000 and its parent at -20000 (both
16-bit coordinates) the exact difference is 40000, and `lvglGetObjRelX` and
`lvglGetObjRelY` return -25536. -/
theorem relative_position_wraps :
    lv_obj_get_parent sampleObjects 1 = 2 ∧
    (sampleObjects 1).coords.x1 - (sampleObjects 2).coords.x1 = 40000 ∧
    lvglGetObjRelX sampleObjects 1 = -25536 ∧
    lvglGetObjRelX sampleObjects 1
      ≠ (sampleObjects 1).coords.x1 - (sampleObjects 2).coords.x1 ∧
    (sampleObjects 1).coords.y1 - (sampleObjects 2).coords.y1 = 40000 ∧
    lvglGetObjRelY sampleObjects 1 = -25536 ∧
    lvglGetObjRelY sampleObjects 1
      ≠ (sampleObjects 1).coords.y1 - (sampleObjects 2).coords.y1 := by
  decide

/-- C6 (amended): for an object with a parent `lvglGetObjRelX` returns
`obj.coords.x1 - parent.coords.x1` converted to `int16_t`, which is the exact
difference whenever that difference lies in [-32768, 32767]; without a parent it
returns `obj.coords.x1` converted to `int16_t`, which is `obj.coords.x1` for a
16-bit coordinate.  The same holds for `lvglGetObjRelY` with `y1`.  The
conversion always lands in [-32768, 32767] and differs from its argument by a
multiple of 65536. -/
theorem relative_position (objs : Nat → lv_obj_t) (obj : Nat) :
    (lv_obj_get_parent objs obj ≠ 0 →
      lvglGetObjRelX objs obj
        = toInt16 ((objs obj).coords.x1 - (objs (lv_obj_get_parent objs obj)).coords.x1) ∧
      lvglGetObjRelY objs obj
        = toInt16 ((objs obj).coords.y1 - (objs (lv_obj_get_parent objs obj)).coords.y1) ∧
      (-32768 ≤ (objs obj).coords.x1 - (objs (lv_obj_get_parent objs obj)).coords.x1 →
        (objs obj).coords.x1 - (objs (lv_obj_get_parent objs obj)).coords.x1 ≤ 32767 →
        lvglGetObjRelX objs obj
          = (objs obj).coords.x1 - (objs (lv_obj_get_parent objs obj)).coords.x1) ∧
      (-32768 ≤ (objs obj).coords.y1 - (objs (lv_obj_get_parent objs obj)).coords.y1 →
        (objs obj).coords.y1 - (objs (lv_obj_get_parent objs obj)).coords.y1 ≤ 32767 →
        lvglGetObjRelY objs obj
          = (objs obj).coords.y1 - (objs (lv_obj_get_parent objs obj)).coords.y1)) ∧
    (lv_obj_get_parent objs obj = 0 →
      lvglGetObjRelX objs obj = toInt16 (objs obj).coords.x1 ∧
      lvglGetObjRelY objs obj = toInt16 (objs obj).coords.y1 ∧
      (-32768 ≤ (objs obj).coords.x1 → (objs obj).coords.x1 ≤ 32767 →
        lvglGetObjRelX objs obj = (objs obj).coords.x1) ∧
      (-32768 ≤ (objs obj).coords.y1 → (objs obj).coords.y1 ≤ 32767 →
        lvglGetObjRelY objs obj = (objs obj).coords.y1)) ∧
    (∀ v : Int, -32768 ≤ toInt16 v ∧ toInt16 v ≤ 32767 ∧ (toInt16 v - v) % 65536 = 0) := by
  have exact16 : ∀ v : Int, -32768 ≤ v → v ≤ 32767 → toInt16 v = v := by
    intro v h1 h2
    unfold toInt16
    omega
  refine ⟨?_, ?_, ?_⟩
  · intro h
    have hx : lvglGetObjRelX objs obj
        = toInt16 ((objs obj).coords.x1 - (objs (lv_obj_get_parent objs obj)).coords.x1) := by
      simp [lvglGetObjRelX, h]
    have hy : lvglGetObjRelY objs obj
        = toInt16 ((objs obj).coords.y1 - (objs (lv_obj_get_parent objs obj)).coords.y1) := by
      simp [lvglGetObjRelY, h]
    exact ⟨hx, hy, fun h1 h2 => hx.trans (exact16 _ h1 h2),
      fun h1 h2 => hy.trans (exact16 _ h1 h2)⟩
  · intro h
    have hx : lvglGetObjRelX objs obj = toInt16 (objs obj).coords.x1 := by
      simp [lvglGetObjRelX, h]
    have hy : lvglGetObjRelY objs obj = toInt16 (objs obj).coords.y1 := by
      simp [lvglGetObjRelY, h]
    exact ⟨hx, hy, fun h1 h2 => hx.trans (exact16 _ h1 h2),
      fun h1 h2 => hy.trans (exact16 _ h1 h2)⟩
  · intro v
    unfold toInt16
    omega

/-- C6 (amended), at a concrete input: object 1 of the sample memory has parent
2 and the difference 40000 is returned as -25536; object 2 has no parent and its
16-bit coordinate -20000 is returned unchanged. -/
theorem relative_position_witness :
    lv_obj_get_parent sampleObjects 1 ≠ 0 ∧
    lvglGetObjRelX sampleObjects 1 = toInt16 (20000 - (-20000)) ∧
    lv_obj_get_parent sampleObjects 2 = 0 ∧
    lvglGetObjRelX sampleObjects 2 = -20000 :=
  ⟨by decide, ((relative_position sampleObjects 1).1 (by decide)).1,
   by decide,
   ((relative_position sampleObjects 2).2.1 (by decide)).2.2.1 (by decide) (by decide)⟩

/-! ## Event bridge -/

/-- The generic callback, run on an event whose user data is an allocated
context: one call of `flowPropagateValue` with the three stored indices. -/
theorem flow_event_callback_run (w : World) (e : lv_event_t) (d : FlowEventCallbackData)
    (h : w.heap e.user_data = some d) :
    (flow_event_callback e).run w
      = .ok ((), { w with log := w.log ++
          [.flowPropagateValue d.page_index d.component_index d.output_index] }) := by
  simp [flow_event_callback, load, call, h, pure_eq_ok, ok_bind]

/-- The freeing callback, run on an event whose user data is an allocated
context: one call of `lv_mem_free`, after which the block is not allocated. -/
theorem flow_event_callback_delete_user_data_run (w : World) (e : lv_event_t)
    (d : FlowEventCallbackData) (h : w.heap e.user_data = some d) :
    (flow_event_callback_delete_user_data e).run w
      = .ok ((), { log := w.log ++ [.lv_mem_free e.user_data],
                   heap := fun a => if a = e.user_data then none else w.heap a,
                   brk := w.brk }) := by
  simp [flow_event_callback_delete_user_data, lv_mem_free, call, h, pure_eq_ok, ok_bind]

/-- One call of `lvglAddObjectFlowCallback`, in full. -/
theorem lvglAddObjectFlowCallback_run (T : Toolkit) (w : World)
    (obj filter page_index component_index output_index : Nat) :
    (lvglAddObjectFlowCallback T obj filter page_index component_index output_index).run w
      = .ok ((), { log := w.log ++
                     [ .lv_mem_alloc 12,
                       (forwardingSubscription T filter w.brk).addedTo obj,
                       .lv_obj_add_event_cb obj .flow_event_callback_delete_user_data
                         T.LV_EVENT_DELETE w.brk ],
                   heap := fun a =>
                     if a = w.brk then some ⟨page_index, component_index, output_index⟩
                     else w.heap a,
                   brk := w.brk + 1 }) := by
  have hheap : (fun a => if a = w.brk then some (⟨page_index, component_index, output_index⟩ :
        FlowEventCallbackData) else
        if a = w.brk then some ⟨page_index, component_index, 0⟩ else
        if a = w.brk then some ⟨page_index, 0, 0⟩ else
        if a = w.brk then some ⟨0, 0, 0⟩ else w.heap a)
      = fun a => if a = w.brk then some ⟨page_index, component_index, output_index⟩
        else w.heap a := by
    funext a
    by_cases ha : a = w.brk <;> simp [ha]
  by_cases h1 : filter = 126
  · simp [lvglAddObjectFlowCallback, lv_mem_alloc, store, call, sizeof_FlowEventCallbackData,
      forwardingSubscription, Subscription.addedTo, LV_EVENT_CHECKED, LV_EVENT_UNCHECKED,
      h1, hheap, pure_eq_ok, ok_bind]
  · by_cases h2 : filter = 127
    · simp [lvglAddObjectFlowCallback, lv_mem_alloc, store, call,
        sizeof_FlowEventCallbackData, forwardingSubscription, Subscription.addedTo,
        LV_EVENT_CHECKED, LV_EVENT_UNCHECKED, h2, hheap, pure_eq_ok, ok_bind]
    · simp [lvglAddObjectFlowCallback, lv_mem_alloc, store, call,
        sizeof_FlowEventCallbackData, forwardingSubscription, Subscription.addedTo,
        LV_EVENT_CHECKED, LV_EVENT_UNCHECKED, h1, h2, hheap, pure_eq_ok, ok_bind]

/-- C2: on an event carrying the context (page, component, output),
`flow_event_checked_callback` calls `flowPropagateValue(page, component, output)`
exactly once when the event code is `LV_EVENT_VALUE_CHANGED` and the target has
`LV_STATE_CHECKED`, and makes no call otherwise. -/
theorem checked_callback_forwards_iff (T : Toolkit) (w : World) (e : lv_event_t)
    (page component output : Nat)
    (hctx : w.heap e.user_data = some ⟨page, component, output⟩) :
    Performs (flow_event_checked_callback T e) w ()
      (if e.code = T.LV_EVENT_VALUE_CHANGED ∧
          T.lv_obj_has_state w.log e.target T.LV_STATE_CHECKED = true
        then [.flowPropagateValue page component output] else []) := by
  by_cases hcode : e.code = T.LV_EVENT_VALUE_CHANGED <;>
    by_cases hstate : T.lv_obj_has_state w.log e.target T.LV_STATE_CHECKED = true <;>
    simp [Performs, flow_event_checked_callback, flow_event_callback, load, call, hctx, hcode,
      hstate, pure_eq_ok, ok_bind]

/-- C2, at a concrete input: object 7 is checked, the event is a value change
(code 28) carrying block 0 = (1, 2, 3); one call `flowPropagateValue(1, 2, 3)`. -/
theorem checked_callback_forwards_iff_witness :
    sampleCheckedWorld.heap 0 = some ⟨1, 2, 3⟩ ∧
    Performs (flow_event_checked_callback sampleToolkit ⟨7, 28, 0⟩) sampleCheckedWorld ()
      [.flowPropagateValue 1 2 3] :=
  ⟨rfl, checked_callback_forwards_iff sampleToolkit sampleCheckedWorld ⟨7, 28, 0⟩ 1 2 3 rfl⟩

/-- C8: on an event carrying a context, if the code is `LV_EVENT_VALUE_CHANGED`
exactly one of the checked and the unchecked callback forwards to
`flowPropagateValue` (the checked one iff the target has `LV_STATE_CHECKED`, the
unchecked one iff it has not); for any other code neither forwards. -/
theorem checked_unchecked_complementary (T : Toolkit) (w : World) (e : lv_event_t)
    (page component output : Nat)
    (hctx : w.heap e.user_data = some ⟨page, component, output⟩) :
    ∃ checked unchecked : List Call,
      Performs (flow_event_checked_callback T e) w () checked ∧
      Performs (flow_event_unchecked_callback T e) w () unchecked ∧
      (e.code = T.LV_EVENT_VALUE_CHANGED →
        (checked = [.flowPropagateValue page component output] ↔
          T.lv_obj_has_state w.log e.target T.LV_STATE_CHECKED = true) ∧
        (unchecked = [.flowPropagateValue page component output] ↔
          T.lv_obj_has_state w.log e.target T.LV_STATE_CHECKED = false) ∧
        ((checked = [.flowPropagateValue page component output] ∧ unchecked = []) ∨
         (checked = [] ∧ unchecked = [.flowPropagateValue page component output]))) ∧
      (e.code ≠ T.LV_EVENT_VALUE_CHANGED → checked = [] ∧ unchecked = []) := by
  by_cases hcode : e.code = T.LV_EVENT_VALUE_CHANGED
  · cases hstate : T.lv_obj_has_state w.log e.target T.LV_STATE_CHECKED
    · refine ⟨[], [.flowPropagateValue page component output], ?_, ?_, ?_, ?_⟩
      · simp [Performs, flow_event_checked_callback, hcode, hstate, pure_eq_ok, ok_bind]
      · simp [Performs, flow_event_unchecked_callback, flow_event_callback, load, call, hctx,
          hcode, hstate, pure_eq_ok, ok_bind]
      · intro _
        simp
      · intro hne
        exact absurd hcode hne
    · refine ⟨[.flowPropagateValue page component output], [], ?_, ?_, ?_, ?_⟩
      · simp [Performs, flow_event_checked_callback, flow_event_callback, load, call, hctx,
          hcode, hstate, pure_eq_ok, ok_bind]
      · simp [Performs, flow_event_unchecked_callback, hcode, hstate, pure_eq_ok, ok_bind]
      · intro _
        simp
      · intro hne
        exact absurd hcode hne
  · refine ⟨[], [], ?_, ?_, ?_, ?_⟩
    · simp [Performs, flow_event_checked_callback, hcode, pure_eq_ok]
    · simp [Performs, flow_event_unchecked_callback, hcode, pure_eq_ok]
    · intro h
      exact absurd h hcode
    · intro _
      exact ⟨rfl, rfl⟩

/-- C8, at a concrete input: object 7 is checked and the event is a value
change, so the checked callback forwards and the unchecked one does not. -/
theorem checked_unchecked_complementary_witness :
    sampleCheckedWorld.heap 0 = some ⟨1, 2, 3⟩ ∧
    ∃ checked unchecked : List Call,
      Performs (flow_event_checked_callback sampleToolkit ⟨7, 28, 0⟩) sampleCheckedWorld ()
        checked ∧
      Performs (flow_event_unchecked_callback sampleToolkit ⟨7, 28, 0⟩) sampleCheckedWorld ()
        unchecked ∧
      checked = [.flowPropagateValue 1 2 3] ∧ unchecked = [] := by
  obtain ⟨checked, unchecked, hc, hu, hvc, -⟩ :=
    checked_unchecked_complementary sampleToolkit sampleCheckedWorld ⟨7, 28, 0⟩ 1 2 3 rfl
  obtain ⟨h1, -, h3⟩ := hvc rfl
  have hchecked := h1.mpr (by decide)
  refine ⟨rfl, checked, unchecked, hc, hu, hchecked, ?_⟩
  rcases h3 with h | h
  · exact h.2
  · rw [h.1] at hchecked
    cases hchecked

/-- C1: `lvglAddObjectFlowCallback(obj, filter, page, component, output)` adds
exactly one forwarding subscription, whose user data is a context block holding
(page, component, output): for filter 0x7E the checked callback on
`LV_EVENT_VALUE_CHANGED`, for 0x7F the unchecked callback on
`LV_EVENT_VALUE_CHANGED`, otherwise the generic callback on `filter` itself; the
generic callback invoked with that user data calls
`flowPropagateValue(page, component, output)`. -/
theorem addObjectFlowCallback_subscribes (T : Toolkit) (w : World)
    (obj filter page component output : Nat) :
    ∃ (w1 : World) (forwarding : Call),
      (lvglAddObjectFlowCallback T obj filter page component output).run w = .ok ((), w1) ∧
      w1.log = w.log ++
        [ .lv_mem_alloc 12, forwarding,
          .lv_obj_add_event_cb obj .flow_event_callback_delete_user_data T.LV_EVENT_DELETE
            w.brk ] ∧
      [ Call.lv_mem_alloc 12, forwarding,
        .lv_obj_add_event_cb obj .flow_event_callback_delete_user_data T.LV_EVENT_DELETE
          w.brk ].filter isForwardingSubscription = [forwarding] ∧
      (filter = 0x7E → forwarding =
        .lv_obj_add_event_cb obj .flow_event_checked_callback T.LV_EVENT_VALUE_CHANGED w.brk) ∧
      (filter = 0x7F → forwarding =
        .lv_obj_add_event_cb obj .flow_event_unchecked_callback T.LV_EVENT_VALUE_CHANGED
          w.brk) ∧
      (filter ≠ 0x7E → filter ≠ 0x7F → forwarding =
        .lv_obj_add_event_cb obj .flow_event_callback filter w.brk) ∧
      w1.heap w.brk = some ⟨page, component, output⟩ ∧
      (∀ e : lv_event_t, e.user_data = w.brk →
        Performs (flow_event_callback e) w1 () [.flowPropagateValue page component output]) := by
  refine ⟨_, (forwardingSubscription T filter w.brk).addedTo obj,
    lvglAddObjectFlowCallback_run T w obj filter page component output, rfl, ?_, ?_, ?_, ?_,
    ?_, ?_⟩
  · by_cases h1 : filter = 126
    · simp [forwardingSubscription, Subscription.addedTo, isForwardingSubscription, h1]
    · by_cases h2 : filter = 127 <;>
        simp [forwardingSubscription, Subscription.addedTo, isForwardingSubscription, h1, h2]
  · intro h
    simp [forwardingSubscription, Subscription.addedTo, h]
  · intro h
    simp [forwardingSubscription, Subscription.addedTo, h]
  · intro h1 h2
    simp [forwardingSubscription, Subscription.addedTo, h1, h2]
  · simp
  · intro e he
    have hload : (fun a => if a = w.brk then some (⟨page, component, output⟩ :
        FlowEventCallbackData) else w.heap a) e.user_data = some ⟨page, component, output⟩ := by
      simp [he]
    simpa [Performs] using flow_event_callback_run
      { log := w.log ++
          [ .lv_mem_alloc 12, (forwardingSubscription T filter w.brk).addedTo obj,
            .lv_obj_add_event_cb obj .flow_event_callback_delete_user_data T.LV_EVENT_DELETE
              w.brk ],
        heap := fun a => if a = w.brk then some ⟨page, component, output⟩ else w.heap a,
        brk := w.brk + 1 } e ⟨page, component, output⟩ hload

/-- C1, at a concrete input: filter 7 on object 5 in the empty world subscribes
the generic callback to code 7 with block 0. -/
theorem addObjectFlowCallback_subscribes_witness :
    ∃ (w1 : World),
      (lvglAddObjectFlowCallback sampleToolkit 5 7 1 2 3).run World.empty = .ok ((), w1) ∧
      w1.log = [ .lv_mem_alloc 12, .lv_obj_add_event_cb 5 .flow_event_callback 7 0,
        .lv_obj_add_event_cb 5 .flow_event_callback_delete_user_data 33 0 ] ∧
      w1.heap 0 = some ⟨1, 2, 3⟩ := by
  obtain ⟨w1, forwarding, hrun, hlog, -, -, -, hgen, hheap, -⟩ :=
    addObjectFlowCallback_subscribes sampleToolkit World.empty 5 7 1 2 3
  have hf := hgen (by decide) (by decide)
  subst hf
  exact ⟨w1, hrun, hlog, hheap⟩

/-! ## Lifetime of the context blocks -/

/-- The event list of a history that was extended. -/
theorem subscriptions_append (l₁ l₂ : List Call) (obj : Nat) :
    subscriptions (l₁ ++ l₂) obj = subscriptions l₁ obj ++ subscriptions l₂ obj := by
  simp [subscriptions, List.filterMap_append]

/-- The blocks allocated for an object are numbered from `base` on. -/
theorem blocksFor_ge (obj : Nat) (regs : List Registration) :
    ∀ base a, a ∈ blocksFor obj base regs → base ≤ a := by
  induction regs with
  | nil => intro base a h; simp [blocksFor] at h
  | cons r rs ih =>
    intro base a h
    simp only [blocksFor, List.mem_append] at h
    rcases h with h | h
    · split at h
      · simp at h; omega
      · simp at h
    · have := ih (base + 1) a h
      omega

/-- The block of the `i`-th registration occurs once among the blocks of `obj`
if that registration is on `obj`, and not at all otherwise. -/
theorem blocksFor_count (obj : Nat) (regs : List Registration) :
    ∀ (base i : Nat) (h : i < regs.length),
      (blocksFor obj base regs).count (base + i) = if regs[i].obj = obj then 1 else 0 := by
  induction regs with
  | nil => intro base i h; simp at h
  | cons r rs ih =>
    intro base i h
    have hrest : ∀ a, a ≤ base → (blocksFor obj (base + 1) rs).count a = 0 := by
      intro a ha
      apply List.count_eq_zero_of_not_mem
      intro hmem
      have := blocksFor_ge obj rs (base + 1) a hmem
      omega
    cases i with
    | zero =>
      simp only [blocksFor, List.count_append, Nat.add_zero, List.getElem_cons_zero]
      rw [hrest base (Nat.le_refl _)]
      by_cases hr : r.obj = obj <;> simp [hr]
    | succ j =>
      have hj : j < rs.length := by simpa using h
      have hih := ih (base + 1) j hj
      have hidx : base + (j + 1) = base + 1 + j := by omega
      have hne : ¬ (base = base + 1 + j) := by omega
      simp only [blocksFor, List.count_append, List.getElem_cons_succ]
      rw [hidx, hih]
      by_cases hr : r.obj = obj <;> simp [hr, List.count_cons, hne]

/-- Several registrations in a row: they end without a fault, hand out the
blocks `w.brk`, `w.brk + 1`, ... in order, store the three indices of the
`i`-th call in block `w.brk + i`, leave older blocks alone, free nothing, and
extend the event list of `obj` by `registeredSubscriptions`. -/
theorem register_run (T : Toolkit) (obj : Nat) (regs : List Registration) :
    ∀ w : World, ∃ (w1 : World) (tr : List Call),
      (register T regs).run w = .ok ((), w1) ∧
      w1.log = w.log ++ tr ∧
      w1.brk = w.brk + regs.length ∧
      subscriptions tr obj = registeredSubscriptions T obj w.brk regs ∧
      (∀ d, tr.count (.lv_mem_free d) = 0) ∧
      (∀ a, a < w.brk → w1.heap a = w.heap a) ∧
      (∀ (i : Nat) (h : i < regs.length),
        w1.heap (w.brk + i)
          = some ⟨regs[i].page_index, regs[i].component_index, regs[i].output_index⟩) := by
  induction regs with
  | nil =>
    intro w
    refine ⟨w, [], ?_, by simp, by simp, by simp [subscriptions, registeredSubscriptions],
      by simp, fun _ _ => rfl, ?_⟩
    · simp [register, pure_eq_ok]
    · intro i h
      simp at h
  | cons r rs ih =>
    intro w
    obtain ⟨w1, tr, hrun, hlog, hbrk, hsubs, hfree, hold, hnew⟩ := ih
      { log := w.log ++
          [ .lv_mem_alloc 12, (forwardingSubscription T r.filter w.brk).addedTo r.obj,
            .lv_obj_add_event_cb r.obj .flow_event_callback_delete_user_data
              T.LV_EVENT_DELETE w.brk ],
        heap := fun a =>
          if a = w.brk then some ⟨r.page_index, r.component_index, r.output_index⟩
          else w.heap a,
        brk := w.brk + 1 }
    refine ⟨w1, [ .lv_mem_alloc 12, (forwardingSubscription T r.filter w.brk).addedTo r.obj,
        .lv_obj_add_event_cb r.obj .flow_event_callback_delete_user_data
          T.LV_EVENT_DELETE w.brk ] ++ tr, ?_, ?_, ?_, ?_, ?_, ?_, ?_⟩
    · simp only [register, StateT.run_bind, lvglAddObjectFlowCallback_run, ok_bind]
      exact hrun
    · simpa using hlog
    · simp only [List.length_cons] at hbrk ⊢
      omega
    · rw [subscriptions_append, hsubs]
      by_cases hr : r.obj = obj <;>
        simp [subscriptions, subscriptionOf, Subscription.addedTo, registeredSubscriptions, hr]
    · intro d
      rw [List.count_append, hfree d]
      simp [Subscription.addedTo]
    · intro a ha
      have h1 := hold a (by simp only; omega)
      rw [h1]
      have hne : a ≠ w.brk := by omega
      simp [hne]
    · intro i h
      cases i with
      | zero =>
        have h1 := hold w.brk (by simp only; omega)
        simpa using h1
      | succ j =>
        have hj : j < rs.length := by simpa using h
        have h1 := hnew j hj
        have hidx : w.brk + (j + 1) = w.brk + 1 + j := by omega
        simpa [hidx] using h1

/-- One step of the dispatch loop. -/
theorem dispatch_cons_run (T : Toolkit) (obj code : Nat) (s : Subscription)
    (rest : List Subscription) (w : World) :
    (dispatch T obj code (s :: rest)).run w
      = ((if s.filter = T.LV_EVENT_ALL ∨ s.filter = code then
            runCallback T s.cb { target := obj, code := code, user_data := s.user_data }
          else pure PUnit.unit : M PUnit).run w
          >>= fun p => (dispatch T obj code rest).run p.2) := by
  by_cases hcond : s.filter = T.LV_EVENT_ALL ∨ s.filter = code
  · simp [dispatch, StateT.run_bind, hcond]
  · simp [dispatch, StateT.run_bind, hcond, pure_eq_ok, ok_bind]

/-- A forwarding subscription whose context is allocated: whether or not the
event passes its filter, the step ends without a fault, frees nothing and leaves
the blocks as they are. -/
theorem forwarding_step (T : Toolkit) (w : World) (obj code : Nat) (s : Subscription)
    (hs : s.cb ≠ .flow_event_callback_delete_user_data) (blk : FlowEventCallbackData)
    (h : w.heap s.user_data = some blk) :
    ∃ tr : List Call,
      (if s.filter = T.LV_EVENT_ALL ∨ s.filter = code then
          runCallback T s.cb { target := obj, code := code, user_data := s.user_data }
        else pure PUnit.unit : M PUnit).run w
        = .ok (PUnit.unit, { w with log := w.log ++ tr }) ∧
      ∀ p, tr.count (.lv_mem_free p) = 0 := by
  obtain ⟨cb, filter, d⟩ := s
  simp only at hs h
  by_cases hcond : filter = T.LV_EVENT_ALL ∨ filter = code
  · simp only [if_pos hcond]
    cases cb with
    | flow_event_callback =>
      refine ⟨[.flowPropagateValue blk.page_index blk.component_index blk.output_index], ?_,
        by simp⟩
      simp [runCallback, flow_event_callback, load, call, h, pure_eq_ok, ok_bind]
    | flow_event_checked_callback =>
      by_cases hfire : code = T.LV_EVENT_VALUE_CHANGED ∧
          T.lv_obj_has_state w.log obj T.LV_STATE_CHECKED = true
      · refine ⟨[.flowPropagateValue blk.page_index blk.component_index blk.output_index],
          ?_, by simp⟩
        simp [runCallback, flow_event_checked_callback, flow_event_callback, load, call,
          h, hfire, pure_eq_ok, ok_bind]
      · refine ⟨[], ?_, by simp⟩
        by_cases hcode : code = T.LV_EVENT_VALUE_CHANGED
        · have hst : T.lv_obj_has_state w.log obj T.LV_STATE_CHECKED = false := by
            cases hb : T.lv_obj_has_state w.log obj T.LV_STATE_CHECKED
            · rfl
            · exact absurd ⟨hcode, hb⟩ hfire
          simp [runCallback, flow_event_checked_callback, hcode, hst, pure_eq_ok,
            ok_bind]
        · simp [runCallback, flow_event_checked_callback, hcode, pure_eq_ok, ok_bind]
    | flow_event_unchecked_callback =>
      by_cases hfire : code = T.LV_EVENT_VALUE_CHANGED ∧
          T.lv_obj_has_state w.log obj T.LV_STATE_CHECKED = false
      · refine ⟨[.flowPropagateValue blk.page_index blk.component_index blk.output_index],
          ?_, by simp⟩
        simp [runCallback, flow_event_unchecked_callback, flow_event_callback, load,
          call, h, hfire, pure_eq_ok, ok_bind]
      · refine ⟨[], ?_, by simp⟩
        by_cases hcode : code = T.LV_EVENT_VALUE_CHANGED
        · have hst : T.lv_obj_has_state w.log obj T.LV_STATE_CHECKED = true := by
            cases hb : T.lv_obj_has_state w.log obj T.LV_STATE_CHECKED
            · exact absurd ⟨hcode, hb⟩ hfire
            · rfl
          simp [runCallback, flow_event_unchecked_callback, hcode, hst, pure_eq_ok,
            ok_bind]
        · simp [runCallback, flow_event_unchecked_callback, hcode, pure_eq_ok, ok_bind]
    | flow_event_callback_delete_user_data => exact absurd rfl hs
  · refine ⟨[], ?_, by simp⟩
    simp [if_neg hcond, pure_eq_ok]

/-- The forwarding subscription is never the freeing callback, and carries the
block it was made for. -/
theorem forwardingSubscription_spec (T : Toolkit) (filter d : Nat) :
    (forwardingSubscription T filter d).cb ≠ .flow_event_callback_delete_user_data ∧
    (forwardingSubscription T filter d).user_data = d := by
  unfold forwardingSubscription
  split
  · simp
  · split <;> simp

/-- The delete event over the subscriptions of a sequence of registrations whose
blocks are all allocated: the dispatch ends without a fault, frees each block of
`obj` once and no other block. -/
theorem dispatch_registered (T : Toolkit) (obj : Nat) (regs : List Registration) :
    ∀ (base : Nat) (w : World),
      (∀ i, i < regs.length → ∃ blk, w.heap (base + i) = some blk) →
      ∃ (w2 : World) (tr : List Call),
        (dispatch T obj T.LV_EVENT_DELETE (registeredSubscriptions T obj base regs)).run w
          = .ok (PUnit.unit, w2) ∧
        w2.log = w.log ++ tr ∧
        w2.brk = w.brk ∧
        (∀ a, w2.heap a = if a ∈ blocksFor obj base regs then none else w.heap a) ∧
        (∀ d, tr.count (.lv_mem_free d) = (blocksFor obj base regs).count d) := by
  induction regs with
  | nil =>
    intro base w _
    exact ⟨w, [], by simp [registeredSubscriptions, dispatch, pure_eq_ok], by simp, rfl,
      by simp [blocksFor], by simp [blocksFor]⟩
  | cons r rs ih =>
    intro base w hlive
    have hlive' : ∀ (w' : World), (∀ a, a ≠ base → w'.heap a = w.heap a) →
        ∀ i, i < rs.length → ∃ blk, w'.heap (base + 1 + i) = some blk := by
      intro w' hsame i hi
      obtain ⟨blk, hblk⟩ := hlive (i + 1) (by simpa using hi)
      refine ⟨blk, ?_⟩
      rw [hsame (base + 1 + i) (by omega)]
      have hidx : base + 1 + i = base + (i + 1) := by omega
      rw [hidx]
      exact hblk
    by_cases hr : r.obj = obj
    · obtain ⟨blk, hblk⟩ := hlive 0 (by simp)
      simp only [Nat.add_zero] at hblk
      obtain ⟨hcb, hud⟩ := forwardingSubscription_spec T r.filter base
      obtain ⟨tr₁, hstep, hfree₁⟩ := forwarding_step T w obj T.LV_EVENT_DELETE
        (forwardingSubscription T r.filter base) hcb blk (by rw [hud]; exact hblk)
      obtain ⟨w2, tr₂, hrun, hlog, hbrk, hheap, hcount⟩ := ih (base + 1)
        { log := w.log ++ tr₁ ++ [.lv_mem_free base],
          heap := fun a => if a = base then none else w.heap a,
          brk := w.brk }
        (hlive' _ (fun a ha => by simp [ha]))
      refine ⟨w2, tr₁ ++ [.lv_mem_free base] ++ tr₂, ?_, ?_, hbrk, ?_, ?_⟩
      · have hdel : (flow_event_callback_delete_user_data
              { target := obj, code := T.LV_EVENT_DELETE, user_data := base }).run
              { w with log := w.log ++ tr₁ }
            = .ok ((), { log := w.log ++ tr₁ ++ [.lv_mem_free base],
                         heap := fun a => if a = base then none else w.heap a,
                         brk := w.brk }) :=
          flow_event_callback_delete_user_data_run { w with log := w.log ++ tr₁ }
            { target := obj, code := T.LV_EVENT_DELETE, user_data := base } blk hblk
        simp only [registeredSubscriptions, hr, if_true, List.cons_append, List.nil_append]
        rw [dispatch_cons_run, hstep, ok_bind, dispatch_cons_run]
        simp only [or_true, if_true, runCallback]
        rw [hdel, ok_bind]
        exact hrun
      · simpa [List.append_assoc] using hlog
      · intro a
        rw [hheap a]
        by_cases ha : a = base
        · simp [blocksFor, hr, ha]
        · simp [blocksFor, hr, ha]
      · intro d
        simp only [List.count_append, hfree₁ d, hcount d, blocksFor, hr, if_true]
        simp [List.count_cons]
    · obtain ⟨w2, tr, hrun, hlog, hbrk, hheap, hcount⟩ := ih (base + 1) w
        (hlive' w (fun _ _ => rfl))
      refine ⟨w2, tr, ?_, hlog, hbrk, ?_, ?_⟩
      · simpa [registeredSubscriptions, hr] using hrun
      · intro a
        rw [hheap a]
        simp [blocksFor, hr]
      · intro d
        rw [hcount d]
        simp [blocksFor, hr]

/-- C3: every call of `lvglAddObjectFlowCallback` allocates exactly one context
block and adds exactly one `LV_EVENT_DELETE` subscription of
`flow_event_callback_delete_user_data` with that block as user data, after the
forwarding subscription; the freeing callback frees its block once; so after
any sequence of such calls the delete event of `obj` ends without a fault (no
forwarding callback reads a freed block, no block is freed twice), and each
block allocated for `obj` has been freed exactly once, the blocks of other
objects staying allocated. -/
theorem contexts_freed_exactly_once (T : Toolkit) (w0 : World) (obj : Nat)
    (regs : List Registration) (hnew : subscriptions w0.log obj = []) :
    (∀ (w : World) (o filter page component output : Nat),
      ∃ (w1 : World) (cb : Callback) (code : Nat),
        (lvglAddObjectFlowCallback T o filter page component output).run w = .ok ((), w1) ∧
        w1.log = w.log ++
          [ .lv_mem_alloc 12, .lv_obj_add_event_cb o cb code w.brk,
            .lv_obj_add_event_cb o .flow_event_callback_delete_user_data T.LV_EVENT_DELETE
              w.brk ] ∧
        cb ≠ .flow_event_callback_delete_user_data ∧
        [ Call.lv_mem_alloc 12, .lv_obj_add_event_cb o cb code w.brk,
          .lv_obj_add_event_cb o .flow_event_callback_delete_user_data T.LV_EVENT_DELETE
            w.brk ].countP (isFreeingSubscription T) = 1 ∧
        w1.brk = w.brk + 1 ∧
        w1.heap w.brk = some ⟨page, component, output⟩) ∧
    (∀ (w : World) (e : lv_event_t) (blk : FlowEventCallbackData),
      w.heap e.user_data = some blk →
      ∃ w1 : World,
        (flow_event_callback_delete_user_data e).run w = .ok ((), w1) ∧
        w1.log = w.log ++ [.lv_mem_free e.user_data] ∧
        w1.heap e.user_data = none ∧
        ∀ a, a ≠ e.user_data → w1.heap a = w.heap a) ∧
    ∃ (w1 w2 : World) (event : List Call),
      (register T regs).run w0 = .ok ((), w1) ∧
      (lv_event_send T obj T.LV_EVENT_DELETE).run w1 = .ok ((), w2) ∧
      w2.log = w1.log ++ event ∧
      ∀ (i : Nat) (h : i < regs.length),
        w1.heap (w0.brk + i)
          = some ⟨regs[i].page_index, regs[i].component_index, regs[i].output_index⟩ ∧
        (regs[i].obj = obj →
          w2.heap (w0.brk + i) = none ∧ event.count (.lv_mem_free (w0.brk + i)) = 1) ∧
        (regs[i].obj ≠ obj →
          w2.heap (w0.brk + i) = w1.heap (w0.brk + i) ∧
          event.count (.lv_mem_free (w0.brk + i)) = 0) := by
  refine ⟨?_, ?_, ?_⟩
  · intro w o filter page component output
    obtain ⟨hcb, -⟩ := forwardingSubscription_spec T filter w.brk
    have hud : (forwardingSubscription T filter w.brk).user_data = w.brk :=
      (forwardingSubscription_spec T filter w.brk).2
    refine ⟨_, (forwardingSubscription T filter w.brk).cb,
      (forwardingSubscription T filter w.brk).filter,
      lvglAddObjectFlowCallback_run T w o filter page component output, ?_, hcb, ?_, rfl, ?_⟩
    · simp [Subscription.addedTo, hud]
    · simp [List.countP_cons, isFreeingSubscription, hcb]
    · simp
  · intro w e blk h
    exact ⟨_, flow_event_callback_delete_user_data_run w e blk h, rfl, by simp,
      fun a ha => by simp [ha]⟩
  · obtain ⟨w1, tr, hrun, hlog, -, hsubs, -, -, hnewblocks⟩ := register_run T obj regs w0
    obtain ⟨w2, event, hdisp, hlog2, -, hheap, hcount⟩ :=
      dispatch_registered T obj regs w0.brk w1 (fun i hi => ⟨_, hnewblocks i hi⟩)
    have hlist : subscriptions w1.log obj = registeredSubscriptions T obj w0.brk regs := by
      rw [hlog, subscriptions_append, hnew, hsubs, List.nil_append]
    refine ⟨w1, w2, event, hrun, ?_, hlog2, ?_⟩
    · simp only [lv_event_send, StateT.run_bind, StateT.run_get, pure_eq_ok, ok_bind, hlist]
      exact hdisp
    · intro i h
      have hc := blocksFor_count obj regs w0.brk i h
      refine ⟨hnewblocks i h, ?_, ?_⟩
      · intro hobj
        rw [if_pos hobj] at hc
        have hmem : w0.brk + i ∈ blocksFor obj w0.brk regs :=
          List.count_pos_iff.mp (by omega)
        exact ⟨by rw [hheap, if_pos hmem], by rw [hcount, hc]⟩
      · intro hobj
        rw [if_neg hobj] at hc
        have hmem : w0.brk + i ∉ blocksFor obj w0.brk regs := by
          intro hm
          have := List.count_pos_iff.mpr hm
          omega
        exact ⟨by rw [hheap, if_neg hmem], by rw [hcount, hc]⟩

/-- C3, at a concrete input: from the empty world, two registrations on object
5 (blocks 0 and 2) and one on object 6 (block 1); after the delete event of
object 5 the blocks 0 and 2 are freed, each once, and block 1 is allocated. -/
theorem contexts_freed_exactly_once_witness :
    subscriptions World.empty.log 5 = [] ∧
    ∃ (w1 w2 : World) (event : List Call),
      (register sampleToolkit sampleRegistrations).run World.empty = .ok ((), w1) ∧
      (lv_event_send sampleToolkit 5 33).run w1 = .ok ((), w2) ∧
      w2.log = w1.log ++ event ∧
      w1.heap 0 = some ⟨1, 2, 3⟩ ∧ w2.heap 0 = none ∧ event.count (.lv_mem_free 0) = 1 ∧
      w1.heap 2 = some ⟨7, 8, 9⟩ ∧ w2.heap 2 = none ∧ event.count (.lv_mem_free 2) = 1 ∧
      w2.heap 1 = some ⟨4, 5, 6⟩ ∧ event.count (.lv_mem_free 1) = 0 := by
  obtain ⟨-, -, w1, w2, event, hreg, hsend, hlog, hblocks⟩ :=
    contexts_freed_exactly_once sampleToolkit World.empty 5 sampleRegistrations rfl
  obtain ⟨h0, h0free, -⟩ := hblocks 0 (by decide)
  obtain ⟨h1, -, h1keep⟩ := hblocks 1 (by decide)
  obtain ⟨h2, h2free, -⟩ := hblocks 2 (by decide)
  have e0 := h0free rfl
  have e1 := h1keep (by decide)
  have e2 := h2free rfl
  exact ⟨rfl, w1, w2, event, hreg, hsend, hlog, h0, e0.1, e0.2, h2, e2.1, e2.2,
    e1.1.trans h1, e1.2⟩

end StudioApi
